import Mathlib

/-!
Verification development for a 2D incompressible Navier-Stokes smoke-plume
simulator (two scripts: a single-gas variant and a two-gas variant, plus a
tabular-export helper). Fields are shallowly embedded as rational-valued
functions on integer grid indices; the per-step operator pipeline of each
variant is embedded together with an operator trace so that the composition
order of a step is itself a checkable value. Library numerics that the
scripts call (advection, resampling, pressure projection) are modelled from
the specification where noted, since their code is not part of the
repository sources.
-/

namespace NavierStokesSim

/-- A field of rational samples indexed by integer grid coordinates. -/
abbrev F2 := ℤ → ℤ → ℚ

/-- Out-of-bounds read policy of a centered grid, per the spec section 4.1:
constant value, zero, or clamp to the nearest in-bounds sample. -/
inductive Extrap where
  | zero : Extrap
  | boundary : Extrap
  | const : ℚ → Extrap
deriving DecidableEq

/-- A centered scalar grid: resolution, square domain side length,
extrapolation policy and the sample values (the source CenteredGrid). -/
structure CGrid where
  nx : ℤ
  ny : ℤ
  L : ℚ
  ex : Extrap
  val : F2

/-- A staggered (MAC) velocity grid: u samples sit on vertical faces
(index i in [0, nx], j in [0, ny)), w samples on horizontal faces
(i in [0, nx), j in [0, ny]); the source StaggeredGrid with
extrapolation 0. -/
structure SGrid where
  nx : ℤ
  ny : ℤ
  L : ℚ
  u : F2
  w : F2

/-- Cell width of a centered grid. -/
def dxC (g : CGrid) : ℚ := g.L / (g.nx : ℚ)

/-- Cell height of a centered grid. -/
def dyC (g : CGrid) : ℚ := g.L / (g.ny : ℚ)

/-- Cell width of a staggered grid. -/
def dxS (g : SGrid) : ℚ := g.L / (g.nx : ℚ)

/-- Cell height of a staggered grid. -/
def dyS (g : SGrid) : ℚ := g.L / (g.ny : ℚ)

/-- Clamp an index into [0, n). -/
def clampI (n i : ℤ) : ℤ := max 0 (min (n - 1) i)

/-- Read a centered grid sample, resolving out-of-bounds queries through the
extrapolation policy (spec 4.1: no exceptions for out-of-range queries). -/
def read (g : CGrid) (i j : ℤ) : ℚ :=
  if 0 ≤ i ∧ i < g.nx ∧ 0 ≤ j ∧ j < g.ny then g.val i j
  else
    match g.ex with
    | Extrap.zero => 0
    | Extrap.boundary => g.val (clampI g.nx i) (clampI g.ny j)
    | Extrap.const c => c

/-- Read a u-face sample; outside the stored faces the value is 0, matching
the source velocity extrapolation 0.0. -/
def readU (g : SGrid) (i j : ℤ) : ℚ :=
  if 0 ≤ i ∧ i ≤ g.nx ∧ 0 ≤ j ∧ j < g.ny then g.u i j else 0

/-- Read a w-face sample; outside the stored faces the value is 0. -/
def readW (g : SGrid) (i j : ℤ) : ℚ :=
  if 0 ≤ i ∧ i < g.nx ∧ 0 ≤ j ∧ j ≤ g.ny then g.w i j else 0

/-- Bilinear interpolation of a read function at fractional index
coordinates, the single sampling primitive of spec 4.2. -/
def bilin (rd : ℤ → ℤ → ℚ) (x y : ℚ) : ℚ :=
  let i0 := ⌊x⌋
  let j0 := ⌊y⌋
  let fx := x - (i0 : ℚ)
  let fy := y - (j0 : ℚ)
  (1 - fx) * (1 - fy) * rd i0 j0 + fx * (1 - fy) * rd (i0 + 1) j0 +
    (1 - fx) * fy * rd i0 (j0 + 1) + fx * fy * rd (i0 + 1) (j0 + 1)

/-- Bilinear sample of a centered grid at fractional index coordinates. -/
def samp (g : CGrid) (x y : ℚ) : ℚ := bilin (fun a b => read g a b) x y

/-- Physical x coordinate of the center of cell column i. -/
def centerX (g : CGrid) (i : ℤ) : ℚ := ((i : ℚ) + 1/2) * dxC g

/-- Physical y coordinate of the center of cell row j. -/
def centerY (g : CGrid) (j : ℤ) : ℚ := ((j : ℚ) + 1/2) * dyC g

/-- Sample a centered grid at a physical point: cell centers sit at
(i + 1/2) dx, so index coordinates are p/dx - 1/2. -/
def sampAt (g : CGrid) (px py : ℚ) : ℚ :=
  samp g (px / dxC g - 1/2) (py / dyC g - 1/2)

/-- Sample the u component of a staggered grid at a physical point:
u faces sit at (i dx, (j + 1/2) dy). -/
def sampU (g : SGrid) (px py : ℚ) : ℚ :=
  bilin (fun a b => readU g a b) (px / dxS g) (py / dyS g - 1/2)

/-- Sample the w component of a staggered grid at a physical point:
w faces sit at ((i + 1/2) dx, j dy). -/
def sampW (g : SGrid) (px py : ℚ) : ℚ :=
  bilin (fun a b => readW g a b) (px / dxS g - 1/2) (py / dyS g)

/-- Pointwise sum of two centered grids (the source grid + grid addition);
the left operand supplies geometry and extrapolation. -/
def cgAdd (a b : CGrid) : CGrid :=
  { a with val := fun i j => a.val i j + b.val i j }

/-- Pointwise difference of two centered grids; the left operand supplies
geometry and extrapolation. -/
def cgSub (a b : CGrid) : CGrid :=
  { a with val := fun i j => a.val i j - b.val i j }

/-- Scaling of a constant extrapolation value; zero and boundary policies
are unaffected by scaling. -/
def scaleEx (k : ℚ) : Extrap → Extrap
  | Extrap.zero => Extrap.zero
  | Extrap.boundary => Extrap.boundary
  | Extrap.const c => Extrap.const (c * k)

/-- Multiply a centered grid by a scalar, scaling values and the constant
extrapolation alike (the source grid * scalar). -/
def mulC (g : CGrid) (k : ℚ) : CGrid :=
  { g with ex := scaleEx k g.ex, val := fun i j => g.val i j * k }

/-- Pointwise sum of two staggered grids. -/
def sgAdd (a b : SGrid) : SGrid :=
  { a with u := fun i j => a.u i j + b.u i j,
           w := fun i j => a.w i j + b.w i j }

/-- Scale a staggered grid by a scalar. -/
def sgScale (k : ℚ) (a : SGrid) : SGrid :=
  { a with u := fun i j => k * a.u i j,
           w := fun i j => k * a.w i j }

/-- Resample a pair of centered component grids onto the staggered sample
locations of a velocity grid (the source vector-grid at vel_struct). -/
def resampleToS (fx fy : CGrid) (g : SGrid) : SGrid :=
  { g with
    u := fun i j => sampAt fx ((i : ℚ) * dxS g) (((j : ℚ) + 1/2) * dyS g),
    w := fun i j => sampAt fy (((i : ℚ) + 1/2) * dxS g) ((j : ℚ) * dyS g) }

/-- A velocity field resampled onto a centered resolution, stored as its two
components on cell centers (the source velocity at smoke). -/
structure VelSnap where
  nx : ℤ
  ny : ℤ
  vx : F2
  vy : F2

/-- Resample a staggered velocity onto the cell centers of a centered grid,
as the recorder does before persisting each snapshot. -/
def resampleVelToC (v : SGrid) (s : CGrid) : VelSnap :=
  { nx := s.nx, ny := s.ny,
    vx := fun i j => sampU v (centerX s i) (centerY s j),
    vy := fun i j => sampW v (centerX s i) (centerY s j) }

/-- Fractional index x coordinate of the backtraced origin of cell (i, j):
the spec 4.3 semi-Lagrangian origin x0 = x - dt v(x), converted into the
index coordinates of the source grid. Modelled from the spec: the advection
operators are library code not present in the repository sources. -/
def backIx (src : CGrid) (vel : SGrid) (dt : ℚ) (i j : ℤ) : ℚ :=
  (centerX src i - dt * sampU vel (centerX src i) (centerY src j)) / dxC src - 1/2

/-- Fractional index y coordinate of the backtraced origin of cell (i, j). -/
def backIy (src : CGrid) (vel : SGrid) (dt : ℚ) (i j : ℤ) : ℚ :=
  (centerY src j - dt * sampW vel (centerX src i) (centerY src j)) / dyC src - 1/2

/-- Semi-Lagrangian value of a centered field at cell (i, j): interpolate the
source field at the backtraced origin. -/
def slC (src : CGrid) (vel : SGrid) (dt : ℚ) (i j : ℤ) : ℚ :=
  samp src (backIx src vel dt i j) (backIy src vel dt i j)

/-- Semi-Lagrangian advection of a centered field along a staggered velocity
(spec 4.3). Modelled from the spec: library code. -/
def semi_lagrangianC (src : CGrid) (vel : SGrid) (dt : ℚ) : CGrid :=
  { src with val := fun i j => slC src vel dt i j }

/-- Semi-Lagrangian advection of a staggered field along a staggered
velocity: each component is backtraced from its own face locations.
Modelled from the spec: library code. -/
def semi_lagrangianS (src vel : SGrid) (dt : ℚ) : SGrid :=
  { src with
    u := fun i j =>
      let px := (i : ℚ) * dxS src
      let py := ((j : ℚ) + 1/2) * dyS src
      sampU src (px - dt * sampU vel px py) (py - dt * sampW vel px py),
    w := fun i j =>
      let px := ((i : ℚ) + 1/2) * dxS src
      let py := (j : ℚ) * dyS src
      sampW src (px - dt * sampU vel px py) (py - dt * sampW vel px py) }

/-- Minimum of the four semi-Lagrangian stencil samples surrounding the
backtraced origin of cell (i, j). -/
def mcLo (src : CGrid) (vel : SGrid) (dt : ℚ) (i j : ℤ) : ℚ :=
  let i0 := ⌊backIx src vel dt i j⌋
  let j0 := ⌊backIy src vel dt i j⌋
  min (min (read src i0 j0) (read src (i0 + 1) j0))
    (min (read src i0 (j0 + 1)) (read src (i0 + 1) (j0 + 1)))

/-- Maximum of the four semi-Lagrangian stencil samples surrounding the
backtraced origin of cell (i, j). -/
def mcHi (src : CGrid) (vel : SGrid) (dt : ℚ) (i j : ℤ) : ℚ :=
  let i0 := ⌊backIx src vel dt i j⌋
  let j0 := ⌊backIy src vel dt i j⌋
  max (max (read src i0 j0) (read src (i0 + 1) j0))
    (max (read src i0 (j0 + 1)) (read src (i0 + 1) (j0 + 1)))

/-- MacCormack advection of a centered field (spec 4.3): forward estimate,
backward correction, corrected value phi-tilde + (phi - phi-back)/2, then a
mandatory clamp to the local stencil extrema. Modelled from the spec:
library code. -/
def mac_cormack (src : CGrid) (vel : SGrid) (dt : ℚ) : CGrid :=
  let fwd := semi_lagrangianC src vel dt
  let bwd := semi_lagrangianC fwd vel (-dt)
  { src with
    val := fun i j =>
      max (mcLo src vel dt i j)
        (min (mcHi src vel dt i j)
          (fwd.val i j + (src.val i j - bwd.val i j) / 2)) }

/-- Five-point explicit diffusion of a centered field with combined
coefficient a = diffusivity * dt (spec 4.4). Modelled from the spec:
library code. -/
def diffuse_explicitC (g : CGrid) (a : ℚ) : CGrid :=
  { g with
    val := fun i j =>
      g.val i j + a *
        ((read g (i + 1) j + read g (i - 1) j - 2 * g.val i j) / (dxC g)^2 +
         (read g i (j + 1) + read g i (j - 1) - 2 * g.val i j) / (dyC g)^2) }

/-- Five-point explicit diffusion of each staggered velocity component with
combined coefficient a = viscosity * dt. Modelled from the spec:
library code. -/
def diffuse_explicitS (g : SGrid) (a : ℚ) : SGrid :=
  { g with
    u := fun i j =>
      g.u i j + a *
        ((readU g (i + 1) j + readU g (i - 1) j - 2 * g.u i j) / (dxS g)^2 +
         (readU g i (j + 1) + readU g i (j - 1) - 2 * g.u i j) / (dyS g)^2),
    w := fun i j =>
      g.w i j + a *
        ((readW g (i + 1) j + readW g (i - 1) j - 2 * g.w i j) / (dxS g)^2 +
         (readW g i (j + 1) + readW g i (j - 1) - 2 * g.w i j) / (dyS g)^2) }

/-- Discrete divergence of a staggered velocity at cell (i, j) (spec 4.5). -/
def divC (g : SGrid) (i j : ℤ) : ℚ :=
  (readU g (i + 1) j - readU g i j) / dxS g +
    (readW g i (j + 1) - readW g i j) / dyS g

/-- Discrete pressure gradient on interior u faces; boundary faces carry no
correction, matching zero normal velocity at the walls (spec 4.5). -/
def gradPu (g : SGrid) (p : F2) (i j : ℤ) : ℚ :=
  if 1 ≤ i ∧ i ≤ g.nx - 1 then (p i j - p (i - 1) j) / dxS g else 0

/-- Discrete pressure gradient on interior w faces. -/
def gradPw (g : SGrid) (p : F2) (i j : ℤ) : ℚ :=
  if 1 ≤ j ∧ j ≤ g.ny - 1 then (p i j - p i (j - 1)) / dyS g else 0

/-- Velocity correction step of the projection: subtract the discrete
pressure gradient from every face sample. -/
def correctVel (g : SGrid) (p : F2) : SGrid :=
  { g with
    u := fun i j => readU g i j - gradPu g p i j,
    w := fun i j => readW g i j - gradPw g p i j }

/-- Discrete Laplacian of the pressure as the divergence of its face
gradient; at interior cells this is the standard five-point Laplacian. -/
def discLap (g : SGrid) (p : F2) (i j : ℤ) : ℚ :=
  (gradPu g p (i + 1) j - gradPu g p i j) / dxS g +
    (gradPw g p i (j + 1) - gradPw g p i j) / dyS g

/-- Neumann-clamped pressure read used by the relaxation solver. -/
def pRead (g : SGrid) (p : F2) (i j : ℤ) : ℚ :=
  p (clampI g.nx i) (clampI g.ny j)

/-- Jacobi relaxation sweeps for the discrete Poisson equation
Lap p = rhs with homogeneous Neumann walls. Modelled from the spec:
section 4.5 allows any consistent bounded-iteration solver; the solver code
itself is library code not present in the repository sources. -/
def jacobiIter (g : SGrid) (rhs : F2) : Nat → F2
  | 0 => fun _ _ => 0
  | Nat.succ k => fun i j =>
      let p := jacobiIter g rhs k
      ((pRead g p (i - 1) j + pRead g p (i + 1) j) / (dxS g)^2 +
       (pRead g p i (j - 1) + pRead g p i (j + 1)) / (dyS g)^2 - rhs i j) /
        (2 / (dxS g)^2 + 2 / (dyS g)^2)

/-- Iteration budget of the modelled pressure solver. -/
def PRESSURE_ITERS : Nat := 2

/-- Pressure field produced by the modelled bounded-iteration solver for the
divergence of a tentative velocity. -/
def solvePressure (g : SGrid) : F2 :=
  jacobiIter g (fun i j => divC g i j) PRESSURE_ITERS

/-- Incompressible projection (spec 4.5): solve for pressure from the
divergence of the tentative velocity, then subtract the discrete pressure
gradient. Modelled from the spec: make_incompressible is library code. -/
def make_incompressible (g : SGrid) : SGrid × F2 :=
  let p := solvePressure g
  (correctVel g p, p)

/-- Tags for the operators a timestep applies, in execution order. -/
inductive OpTag where
  | advectScalarMC : OpTag
  | injectSource : OpTag
  | diffuseScalar : OpTag
  | computeBuoyancy : OpTag
  | advectVelocitySL : OpTag
  | applyBuoyancy : OpTag
  | diffuseVelocity : OpTag
  | project : OpTag
  | emitSnapshot : OpTag
deriving DecidableEq

/-- A value together with the operator trace that produced it. -/
def traced (t : OpTag) (a : α) : α × List OpTag := (a, [t])

/-- Return for the trace-carrying computation. -/
def wret (a : α) : α × List OpTag := (a, [])

/-- Bind for the trace-carrying computation: traces concatenate in
execution order. -/
def wbind (m : α × List OpTag) (f : α → β × List OpTag) : β × List OpTag :=
  ((f m.1).1, m.2 ++ (f m.1).2)

/-- Gravity factor of the two-gas script (GRAVITY = 0.1). -/
def GRAVITY : ℚ := 1/10

/-- Post-advection, post-injection smoke of a two-gas step: MacCormack
advection of the previous smoke plus the inflow field (main.py line 76). -/
def twoGasSmokeNext (v : SGrid) (s inflow : CGrid) (dt : ℚ) : CGrid :=
  cgAdd (mac_cormack s v dt) inflow

/-- Density difference background minus smoke of a two-gas step
(main.py line 91). -/
def twoGasDD (v : SGrid) (s inflow bg : CGrid) (dt : ℚ) : CGrid :=
  cgSub bg (twoGasSmokeNext v s inflow dt)

/-- Buoyancy force of a two-gas step: the density difference times the
vector (0, GRAVITY), resampled onto the staggered velocity locations
(main.py line 95). -/
def twoGasBuoyancy (v : SGrid) (s inflow bg : CGrid) (dt : ℚ) : SGrid :=
  resampleToS (mulC (twoGasDD v s inflow bg dt) 0)
    (mulC (twoGasDD v s inflow bg dt) GRAVITY) v

/-- Tentative velocity of a two-gas step: semi-Lagrangian self-advection
plus the buoyancy force scaled by dt (main.py line 96). -/
def twoGasVelTent (v : SGrid) (s inflow bg : CGrid) (dt : ℚ) : SGrid :=
  sgAdd (semi_lagrangianS v v dt) (sgScale dt (twoGasBuoyancy v s inflow bg dt))

/-- One two-gas timestep with its operator trace, following the body of
step in two_gases_smoke_plume/main.py lines 73-98: advect smoke, add the
inflow, compute buoyancy from the density difference, advect velocity,
apply buoyancy, project. -/
def twoGasStepT (v : SGrid) (s inflow bg : CGrid) (dt : ℚ) :
    (SGrid × CGrid) × List OpTag :=
  wbind (traced OpTag.advectScalarMC (mac_cormack s v dt)) fun _adv =>
  wbind (traced OpTag.injectSource (twoGasSmokeNext v s inflow dt)) fun smokeN =>
  wbind (traced OpTag.computeBuoyancy (twoGasBuoyancy v s inflow bg dt)) fun _bf =>
  wbind (traced OpTag.advectVelocitySL (semi_lagrangianS v v dt)) fun _velAdv =>
  wbind (traced OpTag.applyBuoyancy (twoGasVelTent v s inflow bg dt)) fun velTent =>
  wbind (traced OpTag.project (make_incompressible velTent)) fun vp =>
  wret (vp.1, smokeN)

/-- Velocity returned by a two-gas timestep. -/
def twoGasStepVelocity (v : SGrid) (s inflow bg : CGrid) (dt : ℚ) : SGrid :=
  (twoGasStepT v s inflow bg dt).1.1

/-- Smoke returned by a two-gas timestep. -/
def twoGasStepSmoke (v : SGrid) (s inflow bg : CGrid) (dt : ℚ) : CGrid :=
  (twoGasStepT v s inflow bg dt).1.2

/-- Numeric module globals of smoke_plume.py; the script defines only
N_TIME_STEPS and FPS as numeric names, and in particular neither D nor nu
is bound anywhere in the module or inside main. -/
def singleGasNumericGlobals : List (String × ℚ) :=
  [("N_TIME_STEPS", 375), ("FPS", 30)]

/-- Message of the Python unbound-name failure for a name n. -/
def nameErrorMsg (n : String) : String :=
  "NameError: name " ++ n ++ " is not defined"

/-- Python name resolution for a numeric global of smoke_plume.py: an
unbound name yields the unbound-name error. -/
def lookupGlobal (n : String) : Except String ℚ :=
  match singleGasNumericGlobals.lookup n with
  | some q => Except.ok q
  | none => Except.error (nameErrorMsg n)

/-- Return for the failing trace-carrying computation. -/
def eret (a : α) : Except String α × List OpTag := (Except.ok a, [])

/-- A successfully applied operator inside the failing computation. -/
def etraced (t : OpTag) (a : α) : Except String α × List OpTag :=
  (Except.ok a, [t])

/-- Lift a name lookup into the failing computation. -/
def elift (x : Except String α) : Except String α × List OpTag := (x, [])

/-- Bind for the failing trace-carrying computation: an error stops
execution and keeps the trace of the operators that already ran. -/
def ebind (m : Except String α × List OpTag)
    (f : α → Except String β × List OpTag) :
    Except String β × List OpTag :=
  match m.1 with
  | Except.error e => (Except.error e, m.2)
  | Except.ok a => ((f a).1, m.2 ++ (f a).2)

/-- One single-gas timestep with its operator trace, following the body of
step in smoke_plume/smoke_plume.py lines 75-93. The diffusion coefficients
are resolved through Python name lookup: D (line 80) and nu (line 89) are
unbound, so execution stops at the first of those lookups. -/
def singleGasStepT (v : SGrid) (s inflow : CGrid) (dt : ℚ) :
    Except String (SGrid × CGrid) × List OpTag :=
  ebind (etraced OpTag.advectScalarMC (mac_cormack s v dt)) fun adv =>
  ebind (etraced OpTag.injectSource (cgAdd adv inflow)) fun s1 =>
  ebind (elift (lookupGlobal "D")) fun dcoef =>
  ebind (etraced OpTag.diffuseScalar (diffuse_explicitC s1 (dcoef * dt))) fun s2 =>
  ebind (etraced OpTag.computeBuoyancy
    (resampleToS (mulC s2 0) (mulC s2 (1/10)) v)) fun bf =>
  ebind (etraced OpTag.advectVelocitySL (semi_lagrangianS v v dt)) fun velAdv =>
  ebind (etraced OpTag.applyBuoyancy (sgAdd velAdv (sgScale dt bf))) fun vt1 =>
  ebind (elift (lookupGlobal "nu")) fun nucoef =>
  ebind (etraced OpTag.diffuseVelocity (diffuse_explicitS vt1 (nucoef * dt))) fun vt2 =>
  ebind (etraced OpTag.project (make_incompressible vt2)) fun vp =>
  eret (vp.1, s2)

/-- Initial staggered velocity of both scripts: 64 x 64, bounds 100 x 100,
zero values. -/
def velocity0 : SGrid := ⟨64, 64, 100, fun _ _ => 0, fun _ _ => 0⟩

/-- Initial smoke of both scripts: 200 x 200, bounds 100 x 100, zero
values, BOUNDARY extrapolation. -/
def smoke0 : CGrid := ⟨200, 200, 100, Extrap.boundary, fun _ _ => 0⟩

/-- Density of gas 1 in the two-gas script. -/
def DENSIDAD_GAS_1 : ℚ := 1

/-- Density of gas 2 in the two-gas script. -/
def DENSIDAD_GAS_2 : ℚ := 1/2

/-- Background grid before the half-plane assignment: 200 x 200, constant
gas-1 density, ZERO extrapolation (main.py lines 42-48). -/
def bgInit : CGrid := ⟨200, 200, 100, Extrap.zero, fun _ _ => DENSIDAD_GAS_1⟩

/-- Mask selecting cells whose center x coordinate exceeds 50
(main.py line 53). -/
def half_domain_mask : F2 :=
  fun i _ => if 50 < centerX bgInit i then 1 else 0

/-- Static two-gas background density: gas 1 on the left half-plane, gas 2
on the right, computed once before stepping begins (main.py line 58). -/
def background_density : CGrid :=
  { bgInit with
    val := fun i j =>
      bgInit.val i j * (1 - half_domain_mask i j) +
        DENSIDAD_GAS_2 * half_domain_mask i j }

/-- Membership mask of the source disk resampled onto a centered grid.
Modelled from the spec: the library rasterizes the sphere with a soft
anti-aliased membership mask whose kernel is unspecified; it is modelled
here as the exact disk indicator at cell centers. -/
def sphereMask (cx cy r : ℚ) (g : CGrid) : CGrid :=
  { g with
    val := fun i j =>
      if (centerX g i - cx)^2 + (centerY g j - cy)^2 ≤ r^2 then 1 else 0 }

/-- Initial smoke density carried by the two-gas inflow. -/
def DENSIDAD_INICIAL_HUMO : ℚ := 4/5

/-- Inflow field of the two-gas script: 0.2 * 0.8 times the disk at
(40, 9.5) radius 5 resampled onto the smoke grid. -/
def twoGasInflow : CGrid :=
  mulC (sphereMask 40 (19/2) 5 smoke0) ((1/5) * DENSIDAD_INICIAL_HUMO)

/-- Inflow field of the single-gas script: 0.2 times the same disk. -/
def singleGasInflow : CGrid := mulC (sphereMask 40 (19/2) 5 smoke0) (1/5)

/-- Step count of both scripts. -/
def N_TIME_STEPS : Nat := 375

/-- Snapshot emitted after each step: the smoke grid and the velocity
resampled onto the smoke resolution (main.py lines 121-124). -/
def snapOf (v : SGrid) (s : CGrid) : CGrid × VelSnap := (s, resampleVelToC v s)

/-- One iteration of the two-gas simulation loop with its operator trace:
step, then emit the snapshot pair to the recorder. -/
def twoGasLoopBodyT (v : SGrid) (s : CGrid) :
    ((SGrid × CGrid) × (CGrid × VelSnap)) × List OpTag :=
  wbind (twoGasStepT v s twoGasInflow background_density 1) fun vs =>
  wbind (traced OpTag.emitSnapshot (snapOf vs.1 vs.2)) fun snap =>
  wret (vs, snap)

/-- The two-gas simulation loop: run n steps from a state, returning the
final state and the recorded snapshots in emission order. -/
def twoGasRun : Nat → SGrid → CGrid → (SGrid × CGrid) × List (CGrid × VelSnap)
  | 0, v, s => ((v, s), [])
  | Nat.succ n, v, s =>
      let b := (twoGasLoopBodyT v s).1
      let rest := twoGasRun n b.1.1 b.1.2
      (rest.1, b.2 :: rest.2)

/-- Run metadata persisted with the results (main.py lines 131-135). -/
structure RunMetadata where
  nSteps : Nat
  smokeRes : ℤ × ℤ
  velRes : ℤ × ℤ
deriving DecidableEq

/-- The persisted snapshot container of the two-gas script
(main.py lines 127-137). -/
structure SimulationResults where
  smoke_density : List CGrid
  velocity_field : List VelSnap
  background : CGrid
  metadata : RunMetadata

/-- The container built by the two-gas main after its full run. -/
def twoGasSimulationData : SimulationResults :=
  let r := twoGasRun N_TIME_STEPS velocity0 smoke0
  { smoke_density := r.2.map Prod.fst,
    velocity_field := r.2.map Prod.snd,
    background := background_density,
    metadata :=
      { nSteps := N_TIME_STEPS,
        smokeRes := (r.1.2.nx, r.1.2.ny),
        velRes := (r.1.1.nx, r.1.1.ny) } }

/-- Exceptions the tabular export can raise after a successful load:
the explicit ValueError of data.py line 56, and the IndexError raised while
shifting the coordinate axes when an axis has fewer than two samples
(data.py lines 29-32 index element 1 of the linspace). -/
inductive PErr where
  | valueError : PErr
  | indexError : PErr
deriving DecidableEq

/-- A successfully unpickled results container as data.py consumes it:
the smoke array with shape (nt, ry, rx) and the velocity array with shape
(mt, vy, vx, 2) stored as its two component functions. -/
structure SimArrays where
  nt : Nat
  ry : Nat
  rx : Nat
  smoke : Nat → Nat → Nat → ℚ
  mt : Nat
  vy : Nat
  vx : Nat
  velU : Nat → Nat → Nat → ℚ
  velV : Nat → Nat → Nat → ℚ

/-- Number of flattened coordinate (and density) points: the product of the
smoke array dimensions (data.py line 22 and the meshgrid flatten). -/
def coordCount (d : SimArrays) : Nat := d.nt * d.ry * d.rx

/-- Number of flattened velocity component points. -/
def velCount (d : SimArrays) : Nat := d.mt * d.vy * d.vx

/-- Physical x coordinate of flattened column k: linspace over [0, 100)
with rx points, shifted by half a spacing (data.py lines 29-30). -/
def xCoord (rx k : Nat) : ℚ := 100 * (k : ℚ) / (rx : ℚ) + 100 / (rx : ℚ) / 2

/-- Physical y coordinate of flattened row k (data.py lines 31-32). -/
def yCoord (ry k : Nat) : ℚ := 100 * (k : ℚ) / (ry : ℚ) + 100 / (ry : ℚ) / 2

/-- Flattened u component at flat position k, decoding the C-order layout
of the velocity array (data.py line 50). -/
def velFlatU (d : SimArrays) (k : Nat) : ℚ :=
  d.velU (k / (d.vy * d.vx)) (k / d.vx % d.vy) (k % d.vx)

/-- Flattened v component at flat position k (data.py line 51). -/
def velFlatV (d : SimArrays) (k : Nat) : ℚ :=
  d.velV (k / (d.vy * d.vx)) (k / d.vx % d.vy) (k % d.vx)

/-- One row of the exported DataFrame (data.py lines 59-66). -/
structure PinnRow where
  t : ℚ
  x : ℚ
  y : ℚ
  u : ℚ
  v : ℚ
  density : ℚ

/-- The rows of the DataFrame in flattened C order: row k pairs the
meshgrid coordinates decoded from k with the velocity components at the
same flat position. -/
def pinnRows (d : SimArrays) : List PinnRow :=
  (List.range (coordCount d)).map fun k =>
    { t := (k / (d.ry * d.rx) : Nat),
      x := xCoord d.rx (k % d.rx),
      y := yCoord d.ry (k / d.rx % d.ry),
      u := velFlatU d k,
      v := velFlatV d k,
      density := d.smoke (k / (d.ry * d.rx)) (k / d.rx % d.ry) (k % d.rx) }

/-- The tabular export of data.py lines 9-68. A failed open or unpickle is
caught and yields none (lines 9-14). After a successful load the coordinate
axes are built first, raising IndexError when a spatial axis has fewer than
two samples, then the flattened counts are compared, raising ValueError on
mismatch, and otherwise the DataFrame is returned. -/
def create_pinn_dataframe (loaded : Option SimArrays) :
    Option (Except PErr (List PinnRow)) :=
  match loaded with
  | none => none
  | some d =>
      if d.rx < 2 then some (Except.error PErr.indexError)
      else if d.ry < 2 then some (Except.error PErr.indexError)
      else if coordCount d ≠ velCount d then some (Except.error PErr.valueError)
      else some (Except.ok (pinnRows d))

/-! Helper lemmas. -/

theorem read_pw_zero (g : CGrid) (hv : ∀ i j, g.val i j = 0)
    (hex : g.ex = Extrap.zero ∨ g.ex = Extrap.boundary) :
    ∀ i j, read g i j = 0 := by
  intro i j
  unfold read
  split
  · exact hv i j
  · rcases hex with h | h <;> simp [h, hv]

theorem readU_pw_zero (g : SGrid) (hv : ∀ i j, g.u i j = 0) :
    ∀ i j, readU g i j = 0 := by
  intro i j
  unfold readU
  split
  · exact hv i j
  · rfl

theorem readW_pw_zero (g : SGrid) (hv : ∀ i j, g.w i j = 0) :
    ∀ i j, readW g i j = 0 := by
  intro i j
  unfold readW
  split
  · exact hv i j
  · rfl

theorem bilin_pw_zero (rd : ℤ → ℤ → ℚ) (h : ∀ i j, rd i j = 0) (x y : ℚ) :
    bilin rd x y = 0 := by
  simp [bilin, h]

theorem samp_pw_zero (g : CGrid) (hv : ∀ i j, g.val i j = 0)
    (hex : g.ex = Extrap.zero ∨ g.ex = Extrap.boundary) (x y : ℚ) :
    samp g x y = 0 :=
  bilin_pw_zero _ (read_pw_zero g hv hex) x y

theorem sampU_pw_zero (g : SGrid) (hv : ∀ i j, g.u i j = 0) (px py : ℚ) :
    sampU g px py = 0 :=
  bilin_pw_zero _ (readU_pw_zero g hv) _ _

theorem sampW_pw_zero (g : SGrid) (hv : ∀ i j, g.w i j = 0) (px py : ℚ) :
    sampW g px py = 0 :=
  bilin_pw_zero _ (readW_pw_zero g hv) _ _

theorem read_mulC (g : CGrid) (k : ℚ) (i j : ℤ) :
    read (mulC g k) i j = read g i j * k := by
  simp only [read, mulC]
  by_cases hb : 0 ≤ i ∧ i < g.nx ∧ 0 ≤ j ∧ j < g.ny
  · rw [if_pos hb, if_pos hb]
  · rw [if_neg hb, if_neg hb]
    cases g.ex <;> simp [scaleEx]

theorem samp_mulC (g : CGrid) (k : ℚ) (x y : ℚ) :
    samp (mulC g k) x y = samp g x y * k := by
  simp only [samp, bilin, read_mulC]
  ring

theorem sampAt_mulC (g : CGrid) (k : ℚ) (px py : ℚ) :
    sampAt (mulC g k) px py = sampAt g px py * k := by
  have hdx : dxC (mulC g k) = dxC g := rfl
  have hdy : dyC (mulC g k) = dyC g := rfl
  simp only [sampAt, hdx, hdy, samp_mulC]

theorem mac_cormack_pw_zero (s : CGrid) (v : SGrid) (dt : ℚ)
    (hv : ∀ i j, s.val i j = 0)
    (hex : s.ex = Extrap.zero ∨ s.ex = Extrap.boundary) :
    ∀ i j, (mac_cormack s v dt).val i j = 0 := by
  intro i j
  have hrs : ∀ a b, read s a b = 0 := read_pw_zero s hv hex
  have hfwd : ∀ a b, (semi_lagrangianC s v dt).val a b = 0 := by
    intro a b
    exact samp_pw_zero s hv hex _ _
  have hfex : (semi_lagrangianC s v dt).ex = s.ex := rfl
  have hbwd : ∀ a b,
      (semi_lagrangianC (semi_lagrangianC s v dt) v (-dt)).val a b = 0 := by
    intro a b
    exact samp_pw_zero _ hfwd (by rw [hfex]; exact hex) _ _
  have hlo : mcLo s v dt i j = 0 := by simp [mcLo, hrs]
  have hhi : mcHi s v dt i j = 0 := by simp [mcHi, hrs]
  show max (mcLo s v dt i j)
      (min (mcHi s v dt i j)
        ((semi_lagrangianC s v dt).val i j +
          (s.val i j -
            (semi_lagrangianC (semi_lagrangianC s v dt) v (-dt)).val i j) / 2)) = 0
  rw [hfwd, hv, hbwd, hlo, hhi]
  norm_num

theorem jacobiIter_zero (g : SGrid) (rhs : F2) (h : ∀ i j, rhs i j = 0) :
    ∀ k i j, jacobiIter g rhs k i j = 0 := by
  intro k
  induction k with
  | zero => intro i j; rfl
  | succ n ih =>
      intro i j
      simp [jacobiIter, pRead, ih, h]

theorem gradPu_pw_zero (g : SGrid) (p : F2) (hp : ∀ i j, p i j = 0) (i j : ℤ) :
    gradPu g p i j = 0 := by
  unfold gradPu
  split
  · simp [hp]
  · rfl

theorem gradPw_pw_zero (g : SGrid) (p : F2) (hp : ∀ i j, p i j = 0) (i j : ℤ) :
    gradPw g p i j = 0 := by
  unfold gradPw
  split
  · simp [hp]
  · rfl

theorem discLap_pw_zero (g : SGrid) (p : F2) (hp : ∀ i j, p i j = 0) (i j : ℤ) :
    discLap g p i j = 0 := by
  unfold discLap
  rw [gradPu_pw_zero g p hp, gradPu_pw_zero g p hp,
    gradPw_pw_zero g p hp, gradPw_pw_zero g p hp]
  simp

theorem divC_correctVel (g : SGrid) (p : F2) (i j : ℤ)
    (h1 : 1 ≤ i) (h2 : i ≤ g.nx - 2) (h3 : 1 ≤ j) (h4 : j ≤ g.ny - 2) :
    divC (correctVel g p) i j = divC g i j - discLap g p i j := by
  have e1 : readU (correctVel g p) (i + 1) j =
      readU g (i + 1) j - gradPu g p (i + 1) j := by
    show (if 0 ≤ i + 1 ∧ i + 1 ≤ g.nx ∧ 0 ≤ j ∧ j < g.ny then
        readU g (i + 1) j - gradPu g p (i + 1) j else 0) = _
    rw [if_pos ⟨by omega, by omega, by omega, by omega⟩]
  have e2 : readU (correctVel g p) i j = readU g i j - gradPu g p i j := by
    show (if 0 ≤ i ∧ i ≤ g.nx ∧ 0 ≤ j ∧ j < g.ny then
        readU g i j - gradPu g p i j else 0) = _
    rw [if_pos ⟨by omega, by omega, by omega, by omega⟩]
  have e3 : readW (correctVel g p) i (j + 1) =
      readW g i (j + 1) - gradPw g p i (j + 1) := by
    show (if 0 ≤ i ∧ i < g.nx ∧ 0 ≤ j + 1 ∧ j + 1 ≤ g.ny then
        readW g i (j + 1) - gradPw g p i (j + 1) else 0) = _
    rw [if_pos ⟨by omega, by omega, by omega, by omega⟩]
  have e4 : readW (correctVel g p) i j = readW g i j - gradPw g p i j := by
    show (if 0 ≤ i ∧ i < g.nx ∧ 0 ≤ j ∧ j ≤ g.ny then
        readW g i j - gradPw g p i j else 0) = _
    rw [if_pos ⟨by omega, by omega, by omega, by omega⟩]
  have hdx : dxS (correctVel g p) = dxS g := rfl
  have hdy : dyS (correctVel g p) = dyS g := rfl
  unfold divC discLap
  rw [e1, e2, e3, e4, hdx, hdy]
  ring

theorem twoGasStepT_trace (v : SGrid) (s inflow bg : CGrid) (dt : ℚ) :
    (twoGasStepT v s inflow bg dt).2 =
      [OpTag.advectScalarMC, OpTag.injectSource, OpTag.computeBuoyancy,
       OpTag.advectVelocitySL, OpTag.applyBuoyancy, OpTag.project] := rfl

theorem twoGasLoopBodyT_trace (v : SGrid) (s : CGrid) :
    (twoGasLoopBodyT v s).2 =
      [OpTag.advectScalarMC, OpTag.injectSource, OpTag.computeBuoyancy,
       OpTag.advectVelocitySL, OpTag.applyBuoyancy, OpTag.project,
       OpTag.emitSnapshot] := rfl

theorem twoGasStepT_fst (v : SGrid) (s inflow bg : CGrid) (dt : ℚ) :
    (twoGasStepT v s inflow bg dt).1 =
      ((make_incompressible (twoGasVelTent v s inflow bg dt)).1,
       twoGasSmokeNext v s inflow dt) := rfl

theorem singleGasStepT_eval (v : SGrid) (s inflow : CGrid) (dt : ℚ) :
    singleGasStepT v s inflow dt =
      (Except.error (nameErrorMsg "D"),
       [OpTag.advectScalarMC, OpTag.injectSource]) := rfl

theorem twoGasBody_vel_nx (v : SGrid) (s : CGrid) :
    ((twoGasLoopBodyT v s).1.1.1).nx = v.nx := rfl

theorem twoGasBody_vel_ny (v : SGrid) (s : CGrid) :
    ((twoGasLoopBodyT v s).1.1.1).ny = v.ny := rfl

theorem twoGasBody_smoke_nx (v : SGrid) (s : CGrid) :
    ((twoGasLoopBodyT v s).1.1.2).nx = s.nx := rfl

theorem twoGasBody_smoke_ny (v : SGrid) (s : CGrid) :
    ((twoGasLoopBodyT v s).1.1.2).ny = s.ny := rfl

theorem twoGasBody_snapSmoke_nx (v : SGrid) (s : CGrid) :
    ((twoGasLoopBodyT v s).1.2.1).nx = s.nx := rfl

theorem twoGasBody_snapSmoke_ny (v : SGrid) (s : CGrid) :
    ((twoGasLoopBodyT v s).1.2.1).ny = s.ny := rfl

theorem twoGasBody_snapVel_nx (v : SGrid) (s : CGrid) :
    ((twoGasLoopBodyT v s).1.2.2).nx = s.nx := rfl

theorem twoGasBody_snapVel_ny (v : SGrid) (s : CGrid) :
    ((twoGasLoopBodyT v s).1.2.2).ny = s.ny := rfl

theorem twoGasRun_length (n : Nat) : ∀ v s, ((twoGasRun n v s).2).length = n := by
  induction n with
  | zero => intro v s; rfl
  | succ m ih => intro v s; simp [twoGasRun, ih]

/-- Dimension check of one recorded snapshot against an expected smoke
resolution. -/
def snapDimsOK (sw : ℤ × ℤ) (sn : CGrid × VelSnap) : Bool :=
  sn.1.nx == sw.1 && sn.1.ny == sw.2 && sn.2.nx == sw.1 && sn.2.ny == sw.2

theorem twoGasRun_snap_dims (n : Nat) : ∀ v s,
    (((twoGasRun n v s).2).all (snapDimsOK (s.nx, s.ny))) = true := by
  induction n with
  | zero => intro v s; rfl
  | succ m ih =>
      intro v s
      simp only [twoGasRun, List.all_cons, Bool.and_eq_true]
      constructor
      · simp [snapDimsOK, twoGasBody_snapSmoke_nx, twoGasBody_snapSmoke_ny,
          twoGasBody_snapVel_nx, twoGasBody_snapVel_ny]
      · exact ih ((twoGasLoopBodyT v s).1.1.1) ((twoGasLoopBodyT v s).1.1.2)

theorem twoGasRun_final_dims (n : Nat) : ∀ v s,
    ((twoGasRun n v s).1.1.nx = v.nx ∧ (twoGasRun n v s).1.1.ny = v.ny) ∧
      ((twoGasRun n v s).1.2.nx = s.nx ∧ (twoGasRun n v s).1.2.ny = s.ny) := by
  induction n with
  | zero => intro v s; exact ⟨⟨rfl, rfl⟩, rfl, rfl⟩
  | succ m ih =>
      intro v s
      exact ih ((twoGasLoopBodyT v s).1.1.1) ((twoGasLoopBodyT v s).1.1.2)

theorem all_map_eq (l : List α) (f : α → β) (p : β → Bool) :
    (l.map f).all p = l.all (fun a => p (f a)) := by
  induction l with
  | nil => rfl
  | cons x xs ih => simp [ih]

theorem sampAt_pw_zero (g : CGrid) (hv : ∀ i j, g.val i j = 0)
    (hex : g.ex = Extrap.zero ∨ g.ex = Extrap.boundary) (px py : ℚ) :
    sampAt g px py = 0 :=
  samp_pw_zero g hv hex _ _

theorem twoGasBuoyancy_u_zero (v : SGrid) (s inflow bg : CGrid) (dt : ℚ)
    (i j : ℤ) : (twoGasBuoyancy v s inflow bg dt).u i j = 0 := by
  show sampAt (mulC (twoGasDD v s inflow bg dt) 0) _ _ = 0
  rw [sampAt_mulC]
  ring

/-- A tiny all-zero staggered grid used to instantiate universally
quantified statements on concrete inputs. -/
def vTest : SGrid := ⟨3, 3, 3, fun _ _ => 0, fun _ _ => 0⟩

/-- A tiny all-zero centered grid with zero extrapolation. -/
def cTest : CGrid := ⟨3, 3, 3, Extrap.zero, fun _ _ => 0⟩

theorem smokeNextC_pw_zero (v : SGrid) (dt : ℚ) :
    ∀ a b, (twoGasSmokeNext v cTest cTest dt).val a b = 0 := by
  intro a b
  show (mac_cormack cTest v dt).val a b + cTest.val a b = 0
  rw [mac_cormack_pw_zero cTest v dt (fun _ _ => rfl) (Or.inl rfl)]
  show (0 : ℚ) + 0 = 0
  norm_num

theorem ddC_pw_zero (v : SGrid) (dt : ℚ) :
    ∀ a b, (twoGasDD v cTest cTest cTest dt).val a b = 0 := by
  intro a b
  show cTest.val a b - (twoGasSmokeNext v cTest cTest dt).val a b = 0
  rw [smokeNextC_pw_zero]
  show (0 : ℚ) - 0 = 0
  norm_num

theorem buoyancyC_w_zero (v : SGrid) (dt : ℚ) (i j : ℤ) :
    (twoGasBuoyancy v cTest cTest cTest dt).w i j = 0 := by
  show sampAt (mulC (twoGasDD v cTest cTest cTest dt) GRAVITY) _ _ = 0
  rw [sampAt_mulC, sampAt_pw_zero _ (ddC_pw_zero v dt) (Or.inl rfl)]
  ring

theorem velTentC_u (v : SGrid) (dt : ℚ) (i j : ℤ) :
    (twoGasVelTent v cTest cTest cTest dt).u i j =
      (semi_lagrangianS v v dt).u i j := by
  show (semi_lagrangianS v v dt).u i j +
      dt * (twoGasBuoyancy v cTest cTest cTest dt).u i j = _
  rw [twoGasBuoyancy_u_zero]
  ring

theorem velTentC_w (v : SGrid) (dt : ℚ) (i j : ℤ) :
    (twoGasVelTent v cTest cTest cTest dt).w i j =
      (semi_lagrangianS v v dt).w i j := by
  show (semi_lagrangianS v v dt).w i j +
      dt * (twoGasBuoyancy v cTest cTest cTest dt).w i j = _
  rw [buoyancyC_w_zero]
  ring

theorem divC_VTC (v : SGrid) (dt : ℚ) (i j : ℤ) :
    divC (twoGasVelTent v cTest cTest cTest dt) i j =
      divC (semi_lagrangianS v v dt) i j := by
  have hu : ∀ a b, readU (twoGasVelTent v cTest cTest cTest dt) a b =
      readU (semi_lagrangianS v v dt) a b := by
    intro a b
    show (if 0 ≤ a ∧ a ≤ v.nx ∧ 0 ≤ b ∧ b < v.ny then
        (twoGasVelTent v cTest cTest cTest dt).u a b else 0) =
      (if 0 ≤ a ∧ a ≤ v.nx ∧ 0 ≤ b ∧ b < v.ny then
        (semi_lagrangianS v v dt).u a b else 0)
    split
    · exact velTentC_u v dt a b
    · rfl
  have hw : ∀ a b, readW (twoGasVelTent v cTest cTest cTest dt) a b =
      readW (semi_lagrangianS v v dt) a b := by
    intro a b
    show (if 0 ≤ a ∧ a < v.nx ∧ 0 ≤ b ∧ b ≤ v.ny then
        (twoGasVelTent v cTest cTest cTest dt).w a b else 0) =
      (if 0 ≤ a ∧ a < v.nx ∧ 0 ≤ b ∧ b ≤ v.ny then
        (semi_lagrangianS v v dt).w a b else 0)
    split
    · exact velTentC_w v dt a b
    · rfl
  unfold divC
  rw [hu, hu, hw, hw]
  rfl

theorem jacobiIter_rhs_congr (g : SGrid) (rhs rhs2 : F2)
    (hr : ∀ i j, rhs i j = rhs2 i j) :
    ∀ k i j, jacobiIter g rhs k i j = jacobiIter g rhs2 k i j := by
  intro k
  induction k with
  | zero => intro i j; rfl
  | succ n ih =>
      intro i j
      simp only [jacobiIter, pRead]
      simp only [ih, hr]

theorem jacobiIter_geom_congr (g g2 : SGrid) (hnx : g.nx = g2.nx)
    (hny : g.ny = g2.ny) (hx : dxS g = dxS g2) (hy : dyS g = dyS g2)
    (rhs : F2) : ∀ k i j, jacobiIter g rhs k i j = jacobiIter g2 rhs k i j := by
  intro k
  induction k with
  | zero => intro i j; rfl
  | succ n ih =>
      intro i j
      simp only [jacobiIter, pRead, hnx, hny, hx, hy, ih]

theorem bilin_int (rd : ℤ → ℤ → ℚ) (i j : ℤ) :
    bilin rd (i : ℚ) (j : ℚ) = rd i j := by
  simp only [bilin, Int.floor_intCast]
  ring

theorem sampU_face (g : SGrid) (h1 : dxS g ≠ 0) (h2 : dyS g ≠ 0) (i j : ℤ) :
    sampU g ((i : ℚ) * dxS g) (((j : ℚ) + 1/2) * dyS g) = readU g i j := by
  unfold sampU
  rw [mul_div_cancel_right₀ _ h1]
  have e2 : ((j : ℚ) + 1/2) * dyS g / dyS g - 1/2 = (j : ℚ) := by
    rw [mul_div_cancel_right₀ _ h2]
    ring
  rw [e2]
  exact bilin_int _ i j

/-- C1 counterexample input: a 3 x 3 velocity grid with a single nonzero
u face, on which the bounded-iteration pressure solve leaves a large
residual. -/
def vC : SGrid :=
  ⟨3, 3, 3, fun i j => if i = 1 ∧ j = 1 then 1/2 else 0, fun _ _ => 0⟩

/-- The explicit value of the semi-Lagrangian self-advection of vC. -/
def gC : SGrid :=
  ⟨3, 3, 3, fun i j => if i = 1 ∧ j = 1 then 1/4 else 0, fun _ _ => 0⟩

theorem readU_vC (i j : ℤ) :
    readU vC i j = (if i = 1 ∧ j = 1 then (1:ℚ)/2 else 0) := by
  by_cases hb : 0 ≤ i ∧ i ≤ vC.nx ∧ 0 ≤ j ∧ j < vC.ny
  · show (if 0 ≤ i ∧ i ≤ vC.nx ∧ 0 ≤ j ∧ j < vC.ny then vC.u i j else 0) = _
    rw [if_pos hb]
    rfl
  · show (if 0 ≤ i ∧ i ≤ vC.nx ∧ 0 ≤ j ∧ j < vC.ny then vC.u i j else 0) = _
    rw [if_neg hb, if_neg]
    rintro ⟨hi, hj⟩
    subst hi
    subst hj
    exact hb (by decide)

theorem dxS_vC : dxS vC = 1 := by norm_num [dxS, vC]

theorem dyS_vC : dyS vC = 1 := by norm_num [dyS, vC]

theorem sampU_vC_half : sampU vC (1/2) (3/2) = 1/4 := by
  have h1 : (1:ℚ)/2 / dxS vC = 1/2 := by rw [dxS_vC]; norm_num
  have h2 : (3:ℚ)/2 / dyS vC - 1/2 = 1 := by rw [dyS_vC]; norm_num
  show bilin (fun a b => readU vC a b) ((1:ℚ)/2 / dxS vC)
    ((3:ℚ)/2 / dyS vC - 1/2) = 1/4
  rw [h1, h2]
  simp only [bilin]
  norm_num [readU_vC]

theorem slC_u_val (i j : ℤ) :
    (semi_lagrangianS vC vC 1).u i j = gC.u i j := by
  show sampU vC
      ((i:ℚ) * dxS vC - 1 * sampU vC ((i:ℚ) * dxS vC) (((j:ℚ) + 1/2) * dyS vC))
      (((j:ℚ) + 1/2) * dyS vC -
        1 * sampW vC ((i:ℚ) * dxS vC) (((j:ℚ) + 1/2) * dyS vC)) = gC.u i j
  rw [sampW_pw_zero vC (fun _ _ => rfl),
    sampU_face vC (by norm_num [dxS, vC]) (by norm_num [dyS, vC]) i j,
    readU_vC]
  by_cases hij : i = 1 ∧ j = 1
  · obtain ⟨hi, hj⟩ := hij
    subst hi
    subst hj
    rw [if_pos ⟨rfl, rfl⟩]
    have ha : ((1:ℤ):ℚ) * dxS vC - 1 * (1/2) = 1/2 := by
      rw [dxS_vC]; norm_num
    have hb : (((1:ℤ):ℚ) + 1/2) * dyS vC - 1 * 0 = 3/2 := by
      rw [dyS_vC]; norm_num
    rw [ha, hb, sampU_vC_half]
    show (1:ℚ)/4 = if (1:ℤ) = 1 ∧ (1:ℤ) = 1 then (1:ℚ)/4 else 0
    norm_num
  · rw [if_neg hij]
    have ha : (i:ℚ) * dxS vC - 1 * 0 = (i:ℚ) * dxS vC := by ring
    have hb : ((j:ℚ) + 1/2) * dyS vC - 1 * 0 = ((j:ℚ) + 1/2) * dyS vC := by
      ring
    rw [ha, hb,
      sampU_face vC (by norm_num [dxS, vC]) (by norm_num [dyS, vC]) i j,
      readU_vC, if_neg hij]
    show (0:ℚ) = if i = 1 ∧ j = 1 then (1:ℚ)/4 else 0
    rw [if_neg hij]

theorem slC_w_val (i j : ℤ) : (semi_lagrangianS vC vC 1).w i j = 0 :=
  sampW_pw_zero vC (fun _ _ => rfl) _ _

theorem readU_SL_gC (a b : ℤ) :
    readU (semi_lagrangianS vC vC 1) a b = readU gC a b := by
  show (if 0 ≤ a ∧ a ≤ (3:ℤ) ∧ 0 ≤ b ∧ b < 3 then
      (semi_lagrangianS vC vC 1).u a b else 0) =
    (if 0 ≤ a ∧ a ≤ (3:ℤ) ∧ 0 ≤ b ∧ b < 3 then gC.u a b else 0)
  split
  · exact slC_u_val a b
  · rfl

theorem readW_SL_gC (a b : ℤ) :
    readW (semi_lagrangianS vC vC 1) a b = readW gC a b := by
  show (if 0 ≤ a ∧ a < (3:ℤ) ∧ 0 ≤ b ∧ b ≤ 3 then
      (semi_lagrangianS vC vC 1).w a b else 0) =
    (if 0 ≤ a ∧ a < (3:ℤ) ∧ 0 ≤ b ∧ b ≤ 3 then gC.w a b else 0)
  split
  · rw [slC_w_val]
    rfl
  · rfl

theorem divC_SL_gC (a b : ℤ) :
    divC (semi_lagrangianS vC vC 1) a b = divC gC a b := by
  unfold divC
  rw [readU_SL_gC, readU_SL_gC, readW_SL_gC, readW_SL_gC]
  rfl

theorem divC_VT_gC (a b : ℤ) :
    divC (twoGasVelTent vC cTest cTest cTest 1) a b = divC gC a b :=
  (divC_VTC vC 1 a b).trans (divC_SL_gC a b)

/-! Claim theorems. -/

/-- C1 counterexample: on a concrete state the bounded-iteration pressure
solve of the modelled solver leaves the interior divergence of the velocity
returned by the step at 3/64, far above the 1/10000 tolerance, so the
unconditional per-step incompressibility invariant fails. -/
theorem twoGas_step_divergence_counterexample :
    1/10000 < |divC (twoGasStepVelocity vC cTest cTest cTest 1) 1 1| := by
  have hvt : twoGasStepVelocity vC cTest cTest cTest 1 =
      correctVel (twoGasVelTent vC cTest cTest cTest 1)
        (solvePressure (twoGasVelTent vC cTest cTest cTest 1)) := rfl
  rw [hvt, divC_correctVel _ _ 1 1 (by decide) (by decide) (by decide)
    (by decide)]
  have hjac : solvePressure (twoGasVelTent vC cTest cTest cTest 1) =
      jacobiIter gC (fun a b => divC gC a b) PRESSURE_ITERS := by
    funext a b
    have s1 : solvePressure (twoGasVelTent vC cTest cTest cTest 1) a b =
        jacobiIter (twoGasVelTent vC cTest cTest cTest 1)
          (fun x y => divC gC x y) PRESSURE_ITERS a b :=
      jacobiIter_rhs_congr _ _ _ divC_VT_gC PRESSURE_ITERS a b
    rw [s1]
    exact jacobiIter_geom_congr _ gC rfl rfl rfl rfl _ PRESSURE_ITERS a b
  have hdl : ∀ p : F2,
      discLap (twoGasVelTent vC cTest cTest cTest 1) p 1 1 =
        discLap gC p 1 1 := fun p => rfl
  rw [hjac, divC_VT_gC 1 1, hdl]
  have hj0 : ∀ (rhs : F2) (a b : ℤ), jacobiIter gC rhs 0 a b = 0 :=
    fun _ _ _ => rfl
  have hj1 : ∀ (rhs : F2) (a b : ℤ), jacobiIter gC rhs 1 a b =
      ((pRead gC (jacobiIter gC rhs 0) (a - 1) b +
          pRead gC (jacobiIter gC rhs 0) (a + 1) b) / (dxS gC)^2 +
        (pRead gC (jacobiIter gC rhs 0) a (b - 1) +
          pRead gC (jacobiIter gC rhs 0) a (b + 1)) / (dyS gC)^2 -
        rhs a b) / (2 / (dxS gC)^2 + 2 / (dyS gC)^2) := fun _ _ _ => rfl
  have hj2 : ∀ (rhs : F2) (a b : ℤ), jacobiIter gC rhs 2 a b =
      ((pRead gC (jacobiIter gC rhs 1) (a - 1) b +
          pRead gC (jacobiIter gC rhs 1) (a + 1) b) / (dxS gC)^2 +
        (pRead gC (jacobiIter gC rhs 1) a (b - 1) +
          pRead gC (jacobiIter gC rhs 1) a (b + 1)) / (dyS gC)^2 -
        rhs a b) / (2 / (dxS gC)^2 + 2 / (dyS gC)^2) := fun _ _ _ => rfl
  have hnx : gC.nx = 3 := rfl
  have hny : gC.ny = 3 := rfl
  have hLx : dxS gC = 1 := by norm_num [dxS, gC]
  have hLy : dyS gC = 1 := by norm_num [dyS, gC]
  have hval : divC gC 1 1 -
      discLap gC (jacobiIter gC (fun a b => divC gC a b) PRESSURE_ITERS) 1 1 =
      -(3/64) := by
    norm_num [PRESSURE_ITERS, discLap, gradPu, gradPw, hj2, hj1, hj0, pRead,
      clampI, hnx, hny, hLx, hLy, max_def, min_def]
    norm_num [divC, readU, readW, dxS, dyS, gC]
  rw [hval, abs_neg, abs_of_pos (by norm_num : (0:ℚ) < 3/64)]
  norm_num

/-- C1 amended: at every interior cell the discrete divergence of the
velocity returned by a two-gas timestep equals the residual of the
bounded-iteration pressure solve on the tentative velocity, namely the
divergence of the tentative velocity minus the discrete Laplacian of the
solved pressure; it is therefore below the configured tolerance at exactly
those steps where the solve drove its residual below that tolerance (the
convergent case of spec 4.5) and can exceed it when the iteration budget
is exhausted, a case spec 4.5 and 7 treat as recoverable. The single-gas
variant returns no velocity field at all because its step fails on an
unbound name. -/
theorem twoGas_step_divergence_eq_residual (v : SGrid) (s inflow bg : CGrid)
    (dt : ℚ) :
    ∀ i j, 1 ≤ i → i ≤ v.nx - 2 → 1 ≤ j → j ≤ v.ny - 2 →
      divC (twoGasStepVelocity v s inflow bg dt) i j =
        divC (twoGasVelTent v s inflow bg dt) i j -
          discLap (twoGasVelTent v s inflow bg dt)
            (solvePressure (twoGasVelTent v s inflow bg dt)) i j := by
  intro i j h1 h2 h3 h4
  have hvt : twoGasStepVelocity v s inflow bg dt =
      correctVel (twoGasVelTent v s inflow bg dt)
        (solvePressure (twoGasVelTent v s inflow bg dt)) := rfl
  have hnx : (twoGasVelTent v s inflow bg dt).nx = v.nx := rfl
  have hny : (twoGasVelTent v s inflow bg dt).ny = v.ny := rfl
  rw [hvt]
  exact divC_correctVel _ _ i j h1 (by rw [hnx]; exact h2) h3
    (by rw [hny]; exact h4)

/-- C1 witness: the amended residual identity instantiated at the interior
cell of a concrete 3 x 3 configuration. -/
theorem twoGas_step_divergence_eq_residual_witness :
    ((1 : ℤ) ≤ vTest.nx - 2 ∧ (1 : ℤ) ≤ vTest.ny - 2) ∧
      divC (twoGasStepVelocity vTest cTest cTest cTest 1) 1 1 =
        divC (twoGasVelTent vTest cTest cTest cTest 1) 1 1 -
          discLap (twoGasVelTent vTest cTest cTest cTest 1)
            (solvePressure (twoGasVelTent vTest cTest cTest cTest 1)) 1 1 :=
  ⟨⟨by decide, by decide⟩,
    twoGas_step_divergence_eq_residual vTest cTest cTest cTest 1 1 1
      (by decide) (by decide) (by decide) (by decide)⟩

/-- C2 counterexample: the operator order the claim states (inject before
advect, scalar diffusion, velocity diffusion before buoyancy) is not the
trace of a concrete two-gas loop iteration. -/
def specClaimedOrder : List OpTag :=
  [OpTag.injectSource, OpTag.advectScalarMC, OpTag.diffuseScalar,
   OpTag.computeBuoyancy, OpTag.advectVelocitySL, OpTag.diffuseVelocity,
   OpTag.applyBuoyancy, OpTag.project, OpTag.emitSnapshot]

/-- C2 counterexample: on a concrete state, the trace of one two-gas loop
iteration differs from the order the claim asserts. -/
theorem step_operator_order_counterexample :
    (twoGasLoopBodyT vTest cTest).2 ≠ specClaimedOrder := by
  rw [twoGasLoopBodyT_trace]
  decide

/-- C2 amended: every two-gas loop iteration performs, in order: advect
scalar (MacCormack), inject source, compute buoyancy, advect velocity
(semi-Lagrangian), apply buoyancy, project, emit snapshot, with no
diffusion stage; the single-gas step as written would also diffuse the
scalar and the velocity, but it fails at the scalar diffusion coefficient
lookup, completing only scalar advection and injection. -/
theorem step_operator_order :
    (∀ v s, (twoGasLoopBodyT v s).2 =
      [OpTag.advectScalarMC, OpTag.injectSource, OpTag.computeBuoyancy,
       OpTag.advectVelocitySL, OpTag.applyBuoyancy, OpTag.project,
       OpTag.emitSnapshot]) ∧
    (∀ v s inflow dt, singleGasStepT v s inflow dt =
      (Except.error (nameErrorMsg "D"),
       [OpTag.advectScalarMC, OpTag.injectSource])) :=
  ⟨fun v s => twoGasLoopBodyT_trace v s,
   fun v s inflow dt => singleGasStepT_eval v s inflow dt⟩

/-- C3: every invocation of the single-gas step fails with the Python
unbound-name error for D before producing any output fields, and both D
and nu are unbound in the module, so no single-gas timestep completes. -/
theorem singleGas_step_unbound_names (v : SGrid) (s inflow : CGrid) (dt : ℚ) :
    (singleGasStepT v s inflow dt).1 = Except.error (nameErrorMsg "D") ∧
      lookupGlobal "D" = Except.error (nameErrorMsg "D") ∧
      lookupGlobal "nu" = Except.error (nameErrorMsg "nu") :=
  ⟨rfl, rfl, rfl⟩

/-- C4 counterexample: a concrete two-gas timestep applies no scalar
diffusion operator at all, contradicting the claim that every timestep of
both variants diffuses the smoke field. -/
theorem diffusion_counterexample :
    OpTag.diffuseScalar ∉ (twoGasStepT vTest cTest cTest cTest 1).2 := by
  rw [twoGasStepT_trace]
  decide

/-- C4 amended: no timestep of either variant successfully applies
diffusion: the two-gas step contains no diffusion operator in its trace,
and the single-gas step does invoke scalar then velocity diffusion as
written but fails at the unbound coefficient names, so its diffusion never
executes. -/
theorem diffusion_not_applied :
    (∀ v s inflow bg dt,
      OpTag.diffuseScalar ∉ (twoGasStepT v s inflow bg dt).2 ∧
        OpTag.diffuseVelocity ∉ (twoGasStepT v s inflow bg dt).2) ∧
    (∀ v s inflow dt,
      (singleGasStepT v s inflow dt).1 = Except.error (nameErrorMsg "D")) := by
  constructor
  · intro v s inflow bg dt
    constructor <;> (rw [twoGasStepT_trace]; decide)
  · intro v s inflow dt
    rfl

/-- C5: in every two-gas step the buoyancy force is purely vertical with
w component equal to the density difference background minus post-advection
smoke sampled at the staggered w-face location times GRAVITY; the tentative
velocity is the semi-Lagrangian advected velocity plus dt times that force;
and the static background density is the half-plane field holding gas 1 on
cells with center x at most 50 and gas 2 beyond. -/
theorem twoGas_buoyancy_formula (v : SGrid) (s inflow bg : CGrid) (dt : ℚ)
    (i j : ℤ) :
    (twoGasBuoyancy v s inflow bg dt).u i j = 0 ∧
    (twoGasBuoyancy v s inflow bg dt).w i j =
      sampAt (twoGasDD v s inflow bg dt)
        (((i : ℚ) + 1/2) * dxS v) ((j : ℚ) * dyS v) * GRAVITY ∧
    (twoGasVelTent v s inflow bg dt).u i j =
      (semi_lagrangianS v v dt).u i j +
        dt * (twoGasBuoyancy v s inflow bg dt).u i j ∧
    (twoGasVelTent v s inflow bg dt).w i j =
      (semi_lagrangianS v v dt).w i j +
        dt * (twoGasBuoyancy v s inflow bg dt).w i j ∧
    background_density.val i j =
      (if 100 ≤ i then DENSIDAD_GAS_2 else DENSIDAD_GAS_1) := by
  refine ⟨twoGasBuoyancy_u_zero v s inflow bg dt i j, ?_, rfl, rfl, ?_⟩
  · exact sampAt_mulC _ _ _ _
  · show bgInit.val i j * (1 - half_domain_mask i j) +
      DENSIDAD_GAS_2 * half_domain_mask i j = _
    have hdx : dxC bgInit = 1/2 := by norm_num [dxC, bgInit]
    by_cases h : (100 : ℤ) ≤ i
    · have hc : (50 : ℚ) < centerX bgInit i := by
        show (50 : ℚ) < ((i : ℚ) + 1/2) * dxC bgInit
        rw [hdx]
        have h100 : (100 : ℚ) ≤ (i : ℚ) := by exact_mod_cast h
        linarith
      have hm : half_domain_mask i j = 1 := by
        unfold half_domain_mask
        rw [if_pos hc]
      rw [if_pos h, hm]
      show DENSIDAD_GAS_1 * (1 - 1) + DENSIDAD_GAS_2 * 1 = DENSIDAD_GAS_2
      ring
    · have hc : ¬ (50 : ℚ) < centerX bgInit i := by
        show ¬ (50 : ℚ) < ((i : ℚ) + 1/2) * dxC bgInit
        rw [hdx]
        have h99 : (i : ℚ) ≤ 99 := by exact_mod_cast (show i ≤ 99 by omega)
        intro hcon
        linarith
      have hm : half_domain_mask i j = 0 := by
        unfold half_domain_mask
        rw [if_neg hc]
      rw [if_neg h, hm]
      show DENSIDAD_GAS_1 * (1 - 0) + DENSIDAD_GAS_2 * 0 = DENSIDAD_GAS_1
      ring

/-- C6: the MacCormack advected field is clamped to the local stencil
extrema: at every cell the result lies between the minimum and the maximum
of the four semi-Lagrangian stencil samples of the pre-advection field. -/
theorem mac_cormack_no_overshoot (src : CGrid) (vel : SGrid) (dt : ℚ)
    (i j : ℤ) :
    mcLo src vel dt i j ≤ (mac_cormack src vel dt).val i j ∧
      (mac_cormack src vel dt).val i j ≤ mcHi src vel dt i j := by
  have hlohi : mcLo src vel dt i j ≤ mcHi src vel dt i j := by
    simp only [mcLo, mcHi]
    exact le_trans (le_trans (min_le_left _ _) (min_le_left _ _))
      (le_trans (le_max_left _ _) (le_max_left _ _))
  constructor
  · exact le_max_left _ _
  · exact max_le hlohi (min_le_left _ _)

/-- C9: after the full two-gas run the persisted container holds 375 smoke
arrays at the 200 x 200 smoke resolution, 375 velocity snapshots resampled
onto that same resolution (stored as their two components), and metadata
recording the step count, the smoke resolution and the 64 x 64 velocity
resolution. -/
theorem twoGas_results_shape :
    twoGasSimulationData.smoke_density.length = 375 ∧
    (twoGasSimulationData.smoke_density.all
      fun a => a.nx == 200 && a.ny == 200) = true ∧
    twoGasSimulationData.velocity_field.length = 375 ∧
    (twoGasSimulationData.velocity_field.all
      fun a => a.nx == 200 && a.ny == 200) = true ∧
    twoGasSimulationData.metadata.nSteps = 375 ∧
    twoGasSimulationData.metadata.smokeRes = (200, 200) ∧
    twoGasSimulationData.metadata.velRes = (64, 64) := by
  have hall := twoGasRun_snap_dims N_TIME_STEPS velocity0 smoke0
  have hmem := List.all_eq_true.mp hall
  have hfin := twoGasRun_final_dims N_TIME_STEPS velocity0 smoke0
  refine ⟨?_, ?_, ?_, ?_, rfl, ?_, ?_⟩
  · show ((twoGasRun N_TIME_STEPS velocity0 smoke0).2.map Prod.fst).length = 375
    rw [List.length_map, twoGasRun_length]
    rfl
  · show (((twoGasRun N_TIME_STEPS velocity0 smoke0).2.map Prod.fst).all
      fun a => a.nx == 200 && a.ny == 200) = true
    rw [all_map_eq]
    apply List.all_eq_true.mpr
    intro sn hm
    have hx := hmem sn hm
    simp only [snapDimsOK, Bool.and_eq_true, beq_iff_eq] at hx
    simp only [Bool.and_eq_true, beq_iff_eq]
    exact ⟨hx.1.1.1, hx.1.1.2⟩
  · show ((twoGasRun N_TIME_STEPS velocity0 smoke0).2.map Prod.snd).length = 375
    rw [List.length_map, twoGasRun_length]
    rfl
  · show (((twoGasRun N_TIME_STEPS velocity0 smoke0).2.map Prod.snd).all
      fun a => a.nx == 200 && a.ny == 200) = true
    rw [all_map_eq]
    apply List.all_eq_true.mpr
    intro sn hm
    have hx := hmem sn hm
    simp only [snapDimsOK, Bool.and_eq_true, beq_iff_eq] at hx
    simp only [Bool.and_eq_true, beq_iff_eq]
    exact ⟨hx.1.2, hx.2⟩
  · show ((twoGasRun N_TIME_STEPS velocity0 smoke0).1.2.nx,
      (twoGasRun N_TIME_STEPS velocity0 smoke0).1.2.ny) = ((200 : ℤ), (200 : ℤ))
    rw [hfin.2.1, hfin.2.2]
    rfl
  · show ((twoGasRun N_TIME_STEPS velocity0 smoke0).1.1.nx,
      (twoGasRun N_TIME_STEPS velocity0 smoke0).1.1.ny) = ((64 : ℤ), (64 : ℤ))
    rw [hfin.1.1, hfin.1.2]
    rfl

/-- C7 amended: the export raises a fatal error and never builds the
DataFrame whenever the flattened counts differ; when the counts agree and
each spatial axis of the density grid has at least two samples, it returns
the DataFrame with one row per flattened point; with a one-sample axis the
coordinate construction raises an IndexError before the count check. -/
theorem create_pinn_dataframe_mismatch_fatal (d : SimArrays)
    (hx : 2 ≤ d.rx) (hy : 2 ≤ d.ry) :
    (coordCount d ≠ velCount d →
      create_pinn_dataframe (some d) = some (Except.error PErr.valueError)) ∧
    (coordCount d = velCount d →
      create_pinn_dataframe (some d) = some (Except.ok (pinnRows d)) ∧
        (pinnRows d).length = coordCount d) := by
  constructor
  · intro hne
    simp only [create_pinn_dataframe]
    rw [if_neg (by omega), if_neg (by omega), if_pos hne]
  · intro heq
    constructor
    · simp only [create_pinn_dataframe]
      rw [if_neg (by omega), if_neg (by omega), if_neg (fun hc => hc heq)]
    · simp [pinnRows]

/-- C7 witness: a well-formed container with matching counts on a 2 x 2
grid yields the DataFrame with 4 rows. -/
def dataW : SimArrays :=
  ⟨1, 2, 2, fun _ _ _ => 0, 1, 2, 2, fun _ _ _ => 0, fun _ _ _ => 0⟩

/-- C7 witness: instantiates the amended export theorem on dataW. -/
theorem create_pinn_dataframe_mismatch_fatal_witness :
    2 ≤ dataW.rx ∧ 2 ≤ dataW.ry ∧ coordCount dataW = velCount dataW ∧
      (create_pinn_dataframe (some dataW) =
          some (Except.ok (pinnRows dataW)) ∧
        (pinnRows dataW).length = coordCount dataW) :=
  ⟨by decide, by decide, by decide,
    (create_pinn_dataframe_mismatch_fatal dataW (by decide) (by decide)).2
      (by decide)⟩

/-- C7 counterexample input: a degenerate 1 x 1 container whose counts
agree. -/
def dataBad1 : SimArrays :=
  ⟨1, 1, 1, fun _ _ _ => 0, 1, 1, 1, fun _ _ _ => 0, fun _ _ _ => 0⟩

/-- C7 counterexample: with agreeing counts but a one-sample axis the
export raises an IndexError instead of returning the DataFrame. -/
theorem create_pinn_dataframe_degenerate_counterexample :
    coordCount dataBad1 = velCount dataBad1 ∧
      create_pinn_dataframe (some dataBad1) =
        some (Except.error PErr.indexError) :=
  ⟨rfl, rfl⟩

/-- C10 amended: a failed open or unpickle yields none rather than an
exception; after a successful load whose density grid has at least two
samples per spatial axis, the export raises exactly the ValueError of the
point-count mismatch and never an IndexError; a degenerate axis instead
raises an IndexError while building coordinates. -/
theorem create_pinn_dataframe_error_modes (d : SimArrays)
    (hx : 2 ≤ d.rx) (hy : 2 ≤ d.ry) :
    create_pinn_dataframe none = none ∧
    (create_pinn_dataframe (some d) = some (Except.error PErr.valueError) ↔
      coordCount d ≠ velCount d) ∧
    create_pinn_dataframe (some d) ≠ some (Except.error PErr.indexError) := by
  by_cases he : coordCount d = velCount d
  · have hr : create_pinn_dataframe (some d) =
        some (Except.ok (pinnRows d)) := by
      simp only [create_pinn_dataframe]
      rw [if_neg (by omega), if_neg (by omega), if_neg (fun hc => hc he)]
    refine ⟨rfl, ?_, ?_⟩
    · rw [hr]
      simp [he]
    · rw [hr]
      simp
  · have hr : create_pinn_dataframe (some d) =
        some (Except.error PErr.valueError) := by
      simp only [create_pinn_dataframe]
      rw [if_neg (by omega), if_neg (by omega), if_pos he]
    refine ⟨rfl, ?_, ?_⟩
    · rw [hr]
      simp [he]
    · rw [hr]
      simp

/-- C10 witness input: a container whose flattened counts differ. -/
def dataMismatch : SimArrays :=
  ⟨1, 2, 2, fun _ _ _ => 0, 1, 2, 3, fun _ _ _ => 0, fun _ _ _ => 0⟩

/-- C10 witness: instantiates the error-mode theorem on a mismatching
container, which raises the ValueError. -/
theorem create_pinn_dataframe_error_modes_witness :
    2 ≤ dataMismatch.rx ∧ 2 ≤ dataMismatch.ry ∧
      create_pinn_dataframe (some dataMismatch) =
        some (Except.error PErr.valueError) :=
  ⟨by decide, by decide,
    ((create_pinn_dataframe_error_modes dataMismatch (by decide)
      (by decide)).2.1).mpr (by decide)⟩

/-- C10 counterexample input: a successfully loaded container with a
degenerate y axis and agreeing counts. -/
def dataBad2 : SimArrays :=
  ⟨1, 1, 2, fun _ _ _ => 0, 1, 1, 2, fun _ _ _ => 0, fun _ _ _ => 0⟩

/-- C10 counterexample: after a successful load the export raises an
IndexError that is not the point-count mismatch, refuting that it raises
only for a mismatch. -/
theorem create_pinn_dataframe_nonmismatch_raise_counterexample :
    coordCount dataBad2 = velCount dataBad2 ∧
      create_pinn_dataframe (some dataBad2) =
        some (Except.error PErr.indexError) ∧
      PErr.indexError ≠ PErr.valueError :=
  ⟨rfl, rfl, by decide⟩

end NavierStokesSim
